import Mathlib

/-!
Shallow embedding of the zstreams `_Readable` mixin
(`lib/mixins/_readable.js`): the `pipe`/`unpipe`/`tee` connection
primitive with its fanout tracking, error-listener stripping and
stream-chain dirty marking; the object-mode options each convenience
constructor passes to its stage constructor; the synchronous
transform/filter wrappers; and the JS argument defaulting of `batch`,
`pluck` and `intersperse`.

Listeners and stream nodes are identified by natural numbers (JS object
identity).  Stream chains live in an explicit heap (`Chains`), because a
producer and a consumer may hold the same chain object by reference.
External collaborators (the superclass pipe of the underlying stream
primitive, the EventEmitter listener list, the Foreign-Source Adapter,
the ECMAScript `parseInt` builtin) are modelled at the interface the
mixin uses.
-/

namespace ZStreams

/-- JS values, as far as the argument-defaulting code inspects them. -/
inductive JSVal where
  | undef
  | null
  | bool (b : Bool)
  | num (n : Int)
  | str (s : String)
deriving DecidableEq, Repr

/-- JS truthiness, as used by `!!v`, `v || d` and ternary tests. -/
def JSVal.truthy : JSVal → Bool
  | .undef => false
  | .null => false
  | .bool b => b
  | .num n => n != 0
  | .str s => s != ""

/-- JS `String(x)` on the embedded values (`Int` stands for the integral
numbers the code at issue handles; their JS stringification matches). -/
def JSVal.toStr : JSVal → String
  | .undef => "undefined"
  | .null => "null"
  | .bool b => if b then "true" else "false"
  | .num n => toString n
  | .str s => s

/-- The heap of stream-chain objects: chain `cid` has dirty flag
`flags.getD cid false`.  A producer and a consumer whose chains were
computed together hold the same `cid` (JS: the same object reference). -/
structure Chains where
  flags : List Bool
deriving DecidableEq, Repr

/-- Write `chain.dirty = true` on chain object `cid`. -/
def Chains.markDirty (h : Chains) (cid : Nat) : Chains :=
  ⟨h.flags.set cid true⟩

/-- Read chain object `cid`, dirty flag. -/
def Chains.isDirty (h : Chains) (cid : Nat) : Bool :=
  h.flags.getD cid false

/-- A zstreams stream node, as far as the `_Readable` mixin reads and
writes it: `_isZStream`, the `error` listener list (listener identities
in registration order), `_zDownstreamStreams` (identities of downstream
nodes, source line 13) and `_currentStreamChain` (a chain reference,
`none` when no chain view was ever computed). -/
structure ZNode where
  isZStream : Bool
  errorListeners : List Nat
  downstreamStreams : List Nat
  currentChain : Option Nat
deriving DecidableEq, Repr

/-- Node EventEmitter `removeListener`: removes the most recently added
matching instance of the listener, when one is attached. -/
def removeListener (ls : List Nat) (l : Nat) : List Nat :=
  (ls.reverse.erase l).reverse

/-- Source lines 27-30: when the destination has at least one `error`
listener, remove the listener at index 0 of the error-listener list — the
first-registered one — via `removeListener`. -/
def stripFirstErrorListener : List Nat → List Nat
  | [] => []
  | x :: xs => removeListener (x :: xs) x

/-- Source lines 36-41 and 62-64: `if (node._currentStreamChain)
node._currentStreamChain.dirty = true;`. -/
def markChain (h : Chains) : Option Nat → Chains
  | none => h
  | some cid => h.markDirty cid

/-- Source `_Readable.prototype.pipe` (lines 17-44), acting on producer
`p` and destination `d` (identity `dId`).  External collaborators at
their interface: `conv` is the Foreign-Source Adapter applied when the
destination is not a ZStream and `noConvert` (`nc`) is unset; the
superclass pipe wires the data flow, auto-attaches its default `error`
listener (a fresh identity `dl`) to the destination, and returns the
destination.  Then the mixin strips the first `error` listener of the
destination, pushes the destination onto `_zDownstreamStreams`, and
marks both chain references dirty when present. -/
def pipe (conv : ZNode → ZNode) (nc : Bool) (h : Chains) (p d : ZNode)
    (dId dl : Nat) : Chains × ZNode × ZNode :=
  let d := if !d.isZStream && !nc then conv d else d
  let d := { d with errorListeners := d.errorListeners ++ [dl] }
  let d := { d with errorListeners := stripFirstErrorListener d.errorListeners }
  let p := { p with downstreamStreams := p.downstreamStreams ++ [dId] }
  let h := markChain h p.currentChain
  let h := markChain h d.currentChain
  (h, p, d)

/-- Source `_Readable.prototype.unpipe` (lines 46-67): the superclass
unpipe detaches the data flow; the destination (when given, by identity)
is filtered out of `_zDownstreamStreams`, otherwise the list is cleared;
then the producer chain, when present, is marked dirty.  The destination
node itself is never written to. -/
def unpipe (h : Chains) (p : ZNode) (dest : Option Nat) : Chains × ZNode :=
  let p := { p with downstreamStreams :=
    match dest with
    | some dId => p.downstreamStreams.filter (fun x => x != dId)
    | none => [] }
  (markChain h p.currentChain, p)

/-- Source `getDownstreamStreams` (lines 74-76): returns the live
`_zDownstreamStreams` array. -/
def getDownstreamStreams (n : ZNode) : List Nat :=
  n.downstreamStreams

/-- Source `pipe` together with the handle it returns: the superclass
pipe returns the destination, so after `pipe` the caller holds the
destination node (conventional chaining).  Components: heap, producer,
destination, returned handle. -/
def pipeCall (conv : ZNode → ZNode) (nc : Bool) (h : Chains) (p d : ZNode)
    (dId dl : Nat) : Chains × ZNode × ZNode × ZNode :=
  let r := pipe conv nc h p d dId dl
  (r.1, r.2.1, r.2.2, r.2.2)

/-- Source `tee` (lines 69-72): `this.pipe(destination, options); return
this;` — the `pipe` side effects, with the producer as the returned
handle. -/
def teeCall (conv : ZNode → ZNode) (nc : Bool) (h : Chains) (p d : ZNode)
    (dId dl : Nat) : Chains × ZNode × ZNode × ZNode :=
  let r := pipe conv nc h p d dId dl
  (r.1, r.2.1, r.2.2, r.2.1)

/-- Source `isReadableObjectMode` (lines 78-80): double negation of
`this._readableState.objectMode`. -/
def isReadableObjectMode (objectMode : JSVal) : Bool :=
  objectMode.truthy

/-- The options object a convenience constructor passes to its stage
constructor: nothing, a single `objectMode` flag, or a
`writableObjectMode`/`readableObjectMode` pair. -/
inductive StageOpts where
  | absent
  | objectMode (b : Bool)
  | duplexMode (w r : Bool)
deriving DecidableEq, Repr

/-- The writable-side (consumption) object mode such an options object
configures; a Node stream defaults to data mode when the option is
absent. -/
def StageOpts.writableMode : StageOpts → Bool
  | .absent => false
  | .objectMode b => b
  | .duplexMode w _ => w

/-- The readable-side (production) object mode such an options object
configures. -/
def StageOpts.readableMode : StageOpts → Bool
  | .absent => false
  | .objectMode b => b
  | .duplexMode _ r => r

/-- Source `through` (lines 89-96): `writableObjectMode:
this.isReadableObjectMode()` and `readableObjectMode: (objectMode !==
undefined) ? objectMode : this.isReadableObjectMode()`.  `rs` is the
upstream `_readableState.objectMode` value; `objectMode` is the optional
caller override. -/
def throughOpts (rs : JSVal) (objectMode : Option Bool) : StageOpts :=
  .duplexMode (isReadableObjectMode rs)
    (match objectMode with
     | some b => b
     | none => isReadableObjectMode rs)

/-- Source `throughObj` (lines 104-106): `through(transformFunc, true)`. -/
def throughObjOpts (rs : JSVal) : StageOpts := throughOpts rs (some true)

/-- Source `throughData` (lines 114-116): `through(transformFunc, false)`. -/
def throughDataOpts (rs : JSVal) : StageOpts := throughOpts rs (some false)

/-- Source `filter` (lines 155-157): `new FilterStream(filterFunc, {
objectMode: true })` — a hard-coded object-mode stage. -/
def filterOpts : StageOpts := .objectMode true

/-- Source `split` (lines 213-216): `new SplitStream(delimiter)` — no
mode options passed. -/
def splitOpts : StageOpts := .absent

/-- Source `batch` (lines 224-228): `new BatchStream(batchSize)` — no
mode options passed. -/
def batchOpts : StageOpts := .absent

/-- Source `pluck` (lines 236-239): `new PluckStream(property)` — no
mode options passed. -/
def pluckOpts : StageOpts := .absent

/-- Source `intersperse` (line 249): `{ objectMode:
this.isReadableObjectMode() }`. -/
def intersperseOpts (rs : JSVal) : StageOpts :=
  .objectMode (isReadableObjectMode rs)

/-- Source `each` (lines 264-266): `{ objectMode:
this.isReadableObjectMode() }`. -/
def eachOpts (rs : JSVal) : StageOpts :=
  .objectMode (isReadableObjectMode rs)

/-- Source `intoArray` (lines 177-186): `{ objectMode:
this.isReadableObjectMode() }`. -/
def intoArrayOpts (rs : JSVal) : StageOpts :=
  .objectMode (isReadableObjectMode rs)

/-- Source `intoString` (lines 196-205): `{ objectMode:
this.isReadableObjectMode() }`. -/
def intoStringOpts (rs : JSVal) : StageOpts :=
  .objectMode (isReadableObjectMode rs)

/-- One invocation of a stage callback: `cb(null, v)` or `cb(err)`. -/
inductive CbCall (ε β : Type) where
  | success (v : β)
  | failure (e : ε)
deriving DecidableEq, Repr

/-- Source `throughSync` (lines 125-135).  The function handed to
`through` is invoked by the through wrapper (line 91) with exactly the
two arguments `(chunk, cb)`, so `args[1]` is the callback and
`args.slice(0, -1)` is `[chunk]`; the body is `try { cb(null,
transformFunc(chunk)); } catch (ex) { return cb(ex); }`.  The
synchronous transform is `f : α → Except ε β` (return a value, or
throw); the result is what escapes the wrapper synchronously — an
`Except.error` would be an uncaught throw — carrying the one callback
invocation made. -/
def throughSyncTransform {α ε β : Type} (f : α → Except ε β) (chunk : α) :
    Except ε (CbCall ε β) :=
  match f chunk with
  | .ok v => .ok (.success v)
  | .error ex => .ok (.failure ex)

/-- Source `filterSync` (lines 167-175): `try { cb(null,
filterFunc(chunk)); } catch (ex) { cb(ex); }` with a boolean-returning
synchronous predicate. -/
def filterSyncTransform {α ε : Type} (g : α → Except ε Bool) (chunk : α) :
    Except ε (CbCall ε Bool) :=
  match g chunk with
  | .ok b => .ok (.success b)
  | .error ex => .ok (.failure ex)

/-- Value of a run of decimal digit characters. -/
def digitsVal (ds : List Char) : Nat :=
  ds.foldl (fun a c => a * 10 + (c.toNat - 48)) 0

/-- ECMAScript `parseInt` (no radix argument) on its string argument:
strip leading whitespace, an optional sign, then the longest leading run
of decimal digits; no digits means `NaN`, embedded as `none`.  (The
hexadecimal 0x branch of the builtin is irrelevant to the inputs at
issue and omitted.) -/
def parseIntJS (s : String) : Option Int :=
  let cs := s.data.dropWhile Char.isWhitespace
  let signed : Int × List Char :=
    match cs with
    | '-' :: rest => (-1, rest)
    | '+' :: rest => (1, rest)
    | _ => (1, cs)
  let ds := signed.2.takeWhile Char.isDigit
  if ds.isEmpty then none
  else some (signed.1 * (digitsVal ds : Int))

/-- Source `batch` (lines 224-228): `batchSize = parseInt(batchSize);
batchSize = isNaN(batchSize) ? 10 : batchSize;` — `parseInt` first
stringifies its argument. -/
def batchSizeOf (x : JSVal) : Int :=
  match parseIntJS x.toStr with
  | some n => n
  | none => 10

/-- Source `intersperse` (lines 247-250): `seperator = (seperator ===
null || seperator === undefined) ? chr(10) : seperator;` — a strict
equality test, not a truthiness test. -/
def intersperseSeparator (sep : JSVal) : JSVal :=
  if sep = JSVal.null ∨ sep = JSVal.undef then JSVal.str "\n" else sep

/-- Source `pluck` (lines 236-239): `property = property || "value";` —
a truthiness test. -/
def pluckProperty (p : JSVal) : JSVal :=
  if p.truthy then p else JSVal.str "value"

/-! ## Helper lemmas -/

theorem removeListener_length_of_mem {ls : List Nat} {l : Nat} (hl : l ∈ ls) :
    (removeListener ls l).length = ls.length - 1 := by
  simp [removeListener, List.length_erase_of_mem (List.mem_reverse.mpr hl)]

theorem mem_removeListener_of_ne {ls : List Nat} {a l : Nat} (hne : a ≠ l)
    (ha : a ∈ ls) : a ∈ removeListener ls l := by
  rw [removeListener, List.mem_reverse]
  exact (List.mem_erase_of_ne hne).mpr (List.mem_reverse.mpr ha)

theorem stripFirstErrorListener_append_length (es : List Nat) (dl : Nat) :
    (stripFirstErrorListener (es ++ [dl])).length = es.length := by
  cases es with
  | nil => simp [stripFirstErrorListener, removeListener]
  | cons e t =>
    show (removeListener (e :: (t ++ [dl])) e).length = t.length + 1
    rw [removeListener_length_of_mem (List.mem_cons_self e (t ++ [dl]))]
    simp

theorem mem_stripFirstErrorListener_append (es : List Nat) (dl : Nat)
    (hne : dl ∉ es) (hnonempty : es ≠ []) :
    dl ∈ stripFirstErrorListener (es ++ [dl]) := by
  cases es with
  | nil => exact absurd rfl hnonempty
  | cons e t =>
    have hdl_ne : dl ≠ e := fun hcontra => hne (hcontra ▸ List.mem_cons_self e t)
    exact mem_removeListener_of_ne hdl_ne (by simp)

theorem getD_set_true (l : List Bool) (i : Nat) (hi : i < l.length) :
    (l.set i true).getD i false = true := by
  induction l generalizing i with
  | nil => simp at hi
  | cons a t ih =>
    cases i with
    | zero => rfl
    | succ n => simpa using ih n (by simpa using hi)

theorem getD_set_mono (l : List Bool) (i j : Nat) (hj : l.getD j false = true) :
    (l.set i true).getD j false = true := by
  induction l generalizing i j with
  | nil => simp at hj
  | cons a t ih =>
    cases i with
    | zero =>
      cases j with
      | zero => rfl
      | succ m => simpa using hj
    | succ n =>
      cases j with
      | zero => simpa using hj
      | succ m => simpa using ih n m (by simpa using hj)

theorem isDirty_markDirty_self (h : Chains) (cid : Nat)
    (hc : cid < h.flags.length) : (h.markDirty cid).isDirty cid = true :=
  getD_set_true h.flags cid hc

theorem isDirty_markDirty_mono (h : Chains) (i cid : Nat)
    (hd : h.isDirty cid = true) : (h.markDirty i).isDirty cid = true :=
  getD_set_mono h.flags i cid hd

theorem isDirty_markChain_mono (h : Chains) (o : Option Nat) (cid : Nat)
    (hd : h.isDirty cid = true) : (markChain h o).isDirty cid = true := by
  cases o with
  | none => exact hd
  | some i => exact isDirty_markDirty_mono h i cid hd

theorem markChain_flags_length (h : Chains) (o : Option Nat) :
    (markChain h o).flags.length = h.flags.length := by
  cases o with
  | none => rfl
  | some i => simp [markChain, Chains.markDirty]

theorem pipe_eq_of_isZStream (conv : ZNode → ZNode) (nc : Bool) (h : Chains)
    (p d : ZNode) (dId dl : Nat) (hz : d.isZStream = true) :
    pipe conv nc h p d dId dl =
      (markChain (markChain h p.currentChain) d.currentChain,
       { p with downstreamStreams := p.downstreamStreams ++ [dId] },
       { d with errorListeners :=
          stripFirstErrorListener (d.errorListeners ++ [dl]) }) := by
  simp [pipe, hz]

theorem count_filter_ne_eq (l : List Nat) (d x : Nat) :
    (l.filter (fun y => y != d)).count x =
      if x = d then 0 else l.count x := by
  by_cases hxd : x = d
  · subst hxd
    have hx : x ∉ l.filter (fun y => y != x) := by
      intro hmem
      have h2 := (List.mem_filter.mp hmem).2
      simp at h2
    simp [List.count_eq_zero.mpr hx]
  · rw [if_neg hxd]
    exact List.count_filter (by simpa using hxd)

/-! ## Claim C1 — default error-listener removal on pipe -/

/-- C1 counterexample: with a pre-existing error listener (identity 7) on
the consumer, `pipe` leaves the listener list as `[9]` — the wiring-step
default listener (identity 9) survives and the pre-existing listener is
the one removed — while the claim demands `[7]` (only the wiring-step
listener removed). -/
theorem pipe_error_listener_cex :
    (pipe id false ⟨[]⟩ ⟨true, [], [], none⟩ ⟨true, [7], [], none⟩ 1 9).2.2.errorListeners
      = [9] ∧
    (pipe id false ⟨[]⟩ ⟨true, [], [], none⟩ ⟨true, [7], [], none⟩ 1 9).2.2.errorListeners
      ≠ [7] := by
  decide

/-- C1 (amended): `pipe` removes exactly one error listener from the
consumer — the one at index 0 of the listener list after wiring.  When
the consumer had no pre-existing error listeners, that is the wiring
step default listener (no listener remains); when it had pre-existing
listeners, a pre-existing listener is removed instead and the wiring
step default listener remains attached. -/
theorem pipe_error_listener_amended (conv : ZNode → ZNode) (nc : Bool)
    (h : Chains) (p d : ZNode) (dId dl : Nat) (hz : d.isZStream = true)
    (hdl : dl ∉ d.errorListeners) :
    ((pipe conv nc h p d dId dl).2.2.errorListeners).length =
      d.errorListeners.length ∧
    (d.errorListeners = [] →
      (pipe conv nc h p d dId dl).2.2.errorListeners = []) ∧
    (d.errorListeners ≠ [] →
      dl ∈ (pipe conv nc h p d dId dl).2.2.errorListeners) := by
  rw [pipe_eq_of_isZStream conv nc h p d dId dl hz]
  refine ⟨?_, ?_, ?_⟩
  · exact stripFirstErrorListener_append_length d.errorListeners dl
  · intro hnil
    rw [hnil]
    simp [stripFirstErrorListener, removeListener]
  · intro hnonempty
    exact mem_stripFirstErrorListener_append d.errorListeners dl hdl hnonempty

/-- C1 witness: the amended theorem at the counterexample input — one
listener removed, the default listener (9) still attached. -/
theorem pipe_error_listener_amended_witness :
    ((pipe id false ⟨[]⟩ ⟨true, [], [], none⟩ ⟨true, [7], [], none⟩ 1 9).2.2.errorListeners).length
      = 1 ∧
    9 ∈ (pipe id false ⟨[]⟩ ⟨true, [], [], none⟩ ⟨true, [7], [], none⟩ 1 9).2.2.errorListeners := by
  have hthm := pipe_error_listener_amended id false ⟨[]⟩ ⟨true, [], [], none⟩
    ⟨true, [7], [], none⟩ 1 9 rfl (by decide)
  exact ⟨hthm.1, hthm.2.2 (by decide)⟩

/-! ## Claim C2 — unpipe and the fanout list -/

/-- C2 counterexample: with the consumer (identity 5) appearing twice in
the fanout of the producer, `unpipe` empties the list — it removes every
matching entry — while the claim demands that exactly one entry be
removed, leaving `[5]`. -/
theorem unpipe_duplicate_cex :
    (unpipe ⟨[]⟩ ⟨true, [], [5, 5], none⟩ (some 5)).2.downstreamStreams = [] ∧
    (unpipe ⟨[]⟩ ⟨true, [], [5, 5], none⟩ (some 5)).2.downstreamStreams ≠ [5] := by
  decide

/-- C2 (amended): `unpipe` with a consumer given removes every entry
identical to that consumer from the fanout list (entries of other
consumers keep their multiplicity); `unpipe` with no consumer empties
the list entirely. -/
theorem unpipe_fanout_amended (h : Chains) (p : ZNode) (dId : Nat) :
    (∀ x : Nat, (unpipe h p (some dId)).2.downstreamStreams.count x =
        if x = dId then 0 else p.downstreamStreams.count x) ∧
    (unpipe h p none).2.downstreamStreams = [] := by
  constructor
  · intro x
    exact count_filter_ne_eq p.downstreamStreams dId x
  · rfl

/-! ## Claim C3 — pipe appends to the fanout -/

/-- C3: after `pipe`, the consumer identity appears exactly once more in
the fanout of the producer than before, in append (last) position; the
`getDownstreamStreams` accessor shows the updated list immediately; and
piping the same consumer twice yields two entries (no deduplication). -/
theorem pipe_fanout_append (conv : ZNode → ZNode) (nc : Bool) (h : Chains)
    (p d : ZNode) (dId dl : Nat) (hz : d.isZStream = true) :
    getDownstreamStreams (pipe conv nc h p d dId dl).2.1 =
      getDownstreamStreams p ++ [dId] ∧
    (getDownstreamStreams (pipe conv nc h p d dId dl).2.1).count dId =
      (getDownstreamStreams p).count dId + 1 ∧
    getDownstreamStreams
        (pipe conv nc (pipe conv nc h p d dId dl).1
          (pipe conv nc h p d dId dl).2.1 (pipe conv nc h p d dId dl).2.2
          dId dl).2.1 =
      getDownstreamStreams p ++ [dId, dId] := by
  have h1 := pipe_eq_of_isZStream conv nc h p d dId dl hz
  refine ⟨?_, ?_, ?_⟩
  · rw [h1]
    rfl
  · rw [h1]
    simp [getDownstreamStreams, List.count_append]
  · have hz2 : (pipe conv nc h p d dId dl).2.2.isZStream = true := by
      rw [h1]; exact hz
    rw [pipe_eq_of_isZStream _ _ _ _ _ _ _ hz2, h1]
    simp [getDownstreamStreams]

/-- C3 witness: piping a fresh consumer (identity 2) into a producer with
an empty fanout puts exactly `[2]` there. -/
theorem pipe_fanout_append_witness :
    getDownstreamStreams
      (pipe id false ⟨[]⟩ ⟨true, [], [], none⟩ ⟨true, [], [], none⟩ 2 9).2.1 = [2] := by
  simpa using (pipe_fanout_append id false ⟨[]⟩ ⟨true, [], [], none⟩
    ⟨true, [], [], none⟩ 2 9 rfl).1

/-! ## Claim C4 — dirty marking of chain views -/

/-- C4 counterexample: a producer whose chain is object 0 and a consumer
(identity 5) whose chain is the distinct, clean chain object 1.  After
`unpipe(producer, consumer)` the consumer chain 1 is still clean (the
disconnect never touches the consumer), though the producer chain 0 is
marked dirty — while the claim demands that the chain of every touched
node (producer or consumer) become dirty. -/
theorem unpipe_consumer_chain_cex :
    (ZNode.mk true [] [] (some 1)).currentChain = some 1 ∧
    Chains.isDirty (unpipe ⟨[false, false]⟩ ⟨true, [], [5], some 0⟩ (some 5)).1 1
      = false ∧
    Chains.isDirty (unpipe ⟨[false, false]⟩ ⟨true, [], [5], some 0⟩ (some 5)).1 0
      = true := by
  decide

/-- C4 (amended): `pipe` marks the previously computed chain views of
both the producer and the consumer dirty; `unpipe` marks the producer
chain view dirty, and the consumer chain view only through sharing (it
is marked exactly when it is the producer chain object, or was already
dirty — the consumer node itself is untouched); neither operation ever
turns a dirty flag back to false. -/
theorem chain_dirty_amended (conv : ZNode → ZNode) (nc : Bool) (h : Chains)
    (p d : ZNode) (dId dl : Nat) (dOpt : Option Nat)
    (hz : d.isZStream = true) :
    (∀ cid, p.currentChain = some cid → cid < h.flags.length →
        (pipe conv nc h p d dId dl).1.isDirty cid = true) ∧
    (∀ cid, d.currentChain = some cid → cid < h.flags.length →
        (pipe conv nc h p d dId dl).1.isDirty cid = true) ∧
    (∀ cid, p.currentChain = some cid → cid < h.flags.length →
        (unpipe h p dOpt).1.isDirty cid = true) ∧
    (∀ cid, h.isDirty cid = true →
        (pipe conv nc h p d dId dl).1.isDirty cid = true ∧
        (unpipe h p dOpt).1.isDirty cid = true) := by
  have h1 : (pipe conv nc h p d dId dl).1 =
      markChain (markChain h p.currentChain) d.currentChain := by
    rw [pipe_eq_of_isZStream conv nc h p d dId dl hz]
  have h2 : (unpipe h p dOpt).1 = markChain h p.currentChain := rfl
  refine ⟨?_, ?_, ?_, ?_⟩
  · intro cid hpc hlen
    rw [h1, hpc]
    exact isDirty_markChain_mono _ _ _ (isDirty_markDirty_self h cid hlen)
  · intro cid hdc hlen
    rw [h1, hdc]
    have hlen2 : cid < (markChain h p.currentChain).flags.length := by
      rw [markChain_flags_length]; exact hlen
    exact isDirty_markDirty_self _ cid hlen2
  · intro cid hpc hlen
    rw [h2, hpc]
    exact isDirty_markDirty_self h cid hlen
  · intro cid hd
    constructor
    · rw [h1]
      exact isDirty_markChain_mono _ _ _ (isDirty_markChain_mono _ _ _ hd)
    · rw [h2]
      exact isDirty_markChain_mono _ _ _ hd

/-- C4 witness: the amended theorem at a concrete state — a pipe call
marks the producer chain 0 dirty, and an unpipe call marks it dirty
too. -/
theorem chain_dirty_amended_witness :
    (pipe id false ⟨[false, false]⟩ ⟨true, [], [], some 0⟩ ⟨true, [], [], some 1⟩ 2 9).1.isDirty 0
      = true ∧
    (unpipe ⟨[false, false]⟩ ⟨true, [], [], some 0⟩ none).1.isDirty 0 = true := by
  have hthm := chain_dirty_amended id false ⟨[false, false]⟩
    ⟨true, [], [], some 0⟩ ⟨true, [], [], some 1⟩ 2 9 none rfl
  exact ⟨hthm.1 0 rfl (by decide), hthm.2.2.1 0 rfl (by decide)⟩

/-! ## Claim C6 — tee is pipe returning the producer -/

/-- C6: `tee` has exactly the side effects of `pipe` — the same heap of
chain flags, the same producer state (fanout append, dirty marking) and
the same consumer state (error-listener removal) — but the handle it
returns is the producer, where `pipe` returns the consumer. -/
theorem tee_equiv_pipe_returns_producer (conv : ZNode → ZNode) (nc : Bool)
    (h : Chains) (p d : ZNode) (dId dl : Nat) :
    (teeCall conv nc h p d dId dl).1 = (pipeCall conv nc h p d dId dl).1 ∧
    (teeCall conv nc h p d dId dl).2.1 = (pipeCall conv nc h p d dId dl).2.1 ∧
    (teeCall conv nc h p d dId dl).2.2.1 = (pipeCall conv nc h p d dId dl).2.2.1 ∧
    (teeCall conv nc h p d dId dl).2.2.2 = (teeCall conv nc h p d dId dl).2.1 ∧
    (pipeCall conv nc h p d dId dl).2.2.2 = (pipeCall conv nc h p d dId dl).2.2.1 :=
  ⟨rfl, rfl, rfl, rfl, rfl⟩

/-! ## Claim C5 — object-mode threading of the convenience constructors -/

/-- C5 counterexample: under a data-mode upstream (accessor value false),
a `filter` stage is created with hard-coded `objectMode: true` — its
consumption mode is not configured from the upstream accessor; a `split`
stage under an object-mode upstream is created with no mode options at
all. -/
theorem filter_split_mode_cex :
    isReadableObjectMode (JSVal.bool false) = false ∧
    filterOpts.writableMode = true ∧
    filterOpts.writableMode ≠ isReadableObjectMode (JSVal.bool false) ∧
    isReadableObjectMode (JSVal.bool true) = true ∧
    splitOpts.writableMode ≠ isReadableObjectMode (JSVal.bool true) := by
  decide

/-- C5 (amended): `through` (with `throughObj`/`throughData` and their
synchronous variants) configures the stage consumption mode from the
upstream accessor and, unless the caller overrides it, propagates the
same mode to the production side; `intersperse`, `each`, `intoArray` and
`intoString` configure both sides from the upstream accessor; but
`filter` always creates an object-mode stage regardless of the upstream,
and `split`, `batch` and `pluck` pass no mode configuration at all. -/
theorem mode_threading_amended (rs : JSVal) (ov : Option Bool) :
    (throughOpts rs ov).writableMode = isReadableObjectMode rs ∧
    (ov = none → (throughOpts rs ov).readableMode = isReadableObjectMode rs) ∧
    (∀ b, (throughOpts rs (some b)).readableMode = b) ∧
    (throughObjOpts rs).writableMode = isReadableObjectMode rs ∧
    (throughObjOpts rs).readableMode = true ∧
    (throughDataOpts rs).writableMode = isReadableObjectMode rs ∧
    (throughDataOpts rs).readableMode = false ∧
    (intersperseOpts rs).writableMode = isReadableObjectMode rs ∧
    (intersperseOpts rs).readableMode = isReadableObjectMode rs ∧
    (eachOpts rs).writableMode = isReadableObjectMode rs ∧
    (intoArrayOpts rs).writableMode = isReadableObjectMode rs ∧
    (intoStringOpts rs).writableMode = isReadableObjectMode rs ∧
    filterOpts = StageOpts.objectMode true ∧
    splitOpts = StageOpts.absent ∧
    batchOpts = StageOpts.absent ∧
    pluckOpts = StageOpts.absent := by
  refine ⟨rfl, ?_, ?_, rfl, rfl, rfl, rfl, rfl, rfl, rfl, rfl, rfl, rfl, rfl,
    rfl, rfl⟩
  · intro hov
    subst hov
    rfl
  · intro b
    rfl

/-! ## Claim C7 — synchronous wrappers forward exceptions -/

/-- C7: the function `throughSync` (also `throughObjSync` and
`throughDataSync`, which delegate to it) and `filterSync` build around
the caller-supplied synchronous function never lets an exception escape
synchronously: a raised exception is caught and passed as the error
argument of the stage callback, and a normal return is passed as
`cb(null, result)`. -/
theorem sync_wrappers_forward_errors {α ε β : Type} (f : α → Except ε β)
    (g : α → Except ε Bool) (chunk : α) :
    (∃ c, throughSyncTransform f chunk = Except.ok c) ∧
    (∀ v, f chunk = Except.ok v →
        throughSyncTransform f chunk = Except.ok (CbCall.success v)) ∧
    (∀ e, f chunk = Except.error e →
        throughSyncTransform f chunk = Except.ok (CbCall.failure e)) ∧
    (∃ c, filterSyncTransform g chunk = Except.ok c) ∧
    (∀ b, g chunk = Except.ok b →
        filterSyncTransform g chunk = Except.ok (CbCall.success b)) ∧
    (∀ e, g chunk = Except.error e →
        filterSyncTransform g chunk = Except.ok (CbCall.failure e)) := by
  refine ⟨?_, ?_, ?_, ?_, ?_, ?_⟩
  · cases hf : f chunk with
    | ok v => exact ⟨CbCall.success v, by simp [throughSyncTransform, hf]⟩
    | error e => exact ⟨CbCall.failure e, by simp [throughSyncTransform, hf]⟩
  · intro v hv
    simp [throughSyncTransform, hv]
  · intro e he
    simp [throughSyncTransform, he]
  · cases hg : g chunk with
    | ok b => exact ⟨CbCall.success b, by simp [filterSyncTransform, hg]⟩
    | error e => exact ⟨CbCall.failure e, by simp [filterSyncTransform, hg]⟩
  · intro b hb
    simp [filterSyncTransform, hb]
  · intro e he
    simp [filterSyncTransform, he]

/-! ## Claim C8 — batch size defaulting -/

/-- C8: `batch()` with a missing argument, or any argument whose numeric
coercion is not a valid integer, yields batch size 10; `batch("5")`
yields 5; the computation is total (it never throws synchronously). -/
theorem batch_size_defaults :
    batchSizeOf JSVal.undef = 10 ∧
    batchSizeOf (JSVal.str "5") = 5 ∧
    batchSizeOf (JSVal.str "frogs") = 10 ∧
    batchSizeOf JSVal.null = 10 ∧
    (∀ x : JSVal, parseIntJS x.toStr = none → batchSizeOf x = 10) ∧
    (∀ x : JSVal, ∀ n : Int, parseIntJS x.toStr = some n → batchSizeOf x = n) := by
  refine ⟨by decide, by decide, by decide, by decide, ?_, ?_⟩
  · intro x hx
    simp [batchSizeOf, hx]
  · intro x n hx
    simp [batchSizeOf, hx]

/-! ## Claim C9 — intersperse separator defaulting -/

/-- C9: `intersperse()` with a missing, null or undefined argument uses
the newline separator; any other explicit value — the empty string
included — is used as given, not replaced by the default. -/
theorem intersperse_separator_defaults :
    intersperseSeparator JSVal.undef = JSVal.str "\n" ∧
    intersperseSeparator JSVal.null = JSVal.str "\n" ∧
    intersperseSeparator (JSVal.str "") = JSVal.str "" ∧
    (∀ s : String, intersperseSeparator (JSVal.str s) = JSVal.str s) ∧
    (∀ n : Int, intersperseSeparator (JSVal.num n) = JSVal.num n) := by
  refine ⟨by decide, by decide, by decide, ?_, ?_⟩
  · intro s
    simp [intersperseSeparator]
  · intro n
    simp [intersperseSeparator]

/-! ## Claim C10 — pluck property defaulting is by truthiness -/

/-- C10: `pluck(p)` uses the literal key "value" for every falsy
argument — the empty string, 0, null and undefined included, not only
the omitted case — and uses the caller value exactly when it is
truthy. -/
theorem pluck_property_defaults (p : JSVal) (hfalsy : p.truthy = false) :
    pluckProperty p = JSVal.str "value" ∧
    pluckProperty (JSVal.str "") = JSVal.str "value" ∧
    pluckProperty (JSVal.num 0) = JSVal.str "value" ∧
    pluckProperty JSVal.null = JSVal.str "value" ∧
    pluckProperty JSVal.undef = JSVal.str "value" ∧
    (∀ q : JSVal, q.truthy = true → pluckProperty q = q) := by
  refine ⟨by simp [pluckProperty, hfalsy], by decide, by decide, by decide,
    by decide, ?_⟩
  intro q hq
  simp [pluckProperty, hq]

/-- C10 witness: the theorem at the falsy input `""` — the key plucked is
"value" — and at the truthy input `"id"` — the key plucked is "id". -/
theorem pluck_property_defaults_witness :
    pluckProperty (JSVal.str "") = JSVal.str "value" ∧
    pluckProperty (JSVal.str "id") = JSVal.str "id" := by
  have hthm := pluck_property_defaults (JSVal.str "") (by decide)
  exact ⟨hthm.1, hthm.2.2.2.2.2 (JSVal.str "id") (by decide)⟩

end ZStreams
